import Mathlib

/-!
Verification of the growing-cities Landsat processing scripts.

The Python sources are shallowly embedded:
* `satellite.py` — the `Satellite` band-selection table (`Satellite.init`,
  `sensor`, and the three `*_color_bands` properties);
* `hist.py` — the earlier copy of the same table, under namespace `Hist`;
* `scene.py` — `SceneID` field accessors and the six-step `Scene` pipeline,
  modelled as functions over an explicit filesystem abstraction `FS` with an
  external-command oracle `Env`;
* `earthexplorer.py` — the cloud-cover filter of `get_scenes` over parsed
  inventory metadata;
* `main.py` — the per-scene driver loop (`processScenes`).

Python exceptions are modelled by `PyErr`; a Python `int` is a Lean `Int`.
-/

/-- The Python exceptions raised by the scripts: `ValueError`, `TypeError`,
`IOError`, and `invoke.exceptions.Failure` (external command exited non-zero). -/
inductive PyErr where
  | valueError : String → PyErr
  | typeError : String → PyErr
  | ioError : String → PyErr
  | failure : String → PyErr
  | indexError : PyErr
deriving DecidableEq, Repr

deriving instance DecidableEq for Except

/-- Configuration data for a given Landsat satellite (`satellite.py`). The
constructor stores the version; validation is in `Satellite.init`. -/
structure Satellite where
  version : Int
deriving DecidableEq, Repr

/-- The `__init__` validation of `Satellite` from `satellite.py`: rejects version 6 (rocket
failure) and versions above 8; every other integer is stored unchanged. -/
def Satellite.init (version : Int) : Except PyErr Satellite :=
  if version = 6 then
    .error (.valueError "There is no Landsat 6 data due to a rocket failure.")
  else if version > 8 then
    .error (.valueError "Landsat 8 is the highest active version.")
  else
    .ok ⟨version⟩

/-- `Satellite.sensor` from `satellite.py`: the sensor code is a pure function
of the version. -/
def Satellite.sensor (version : Int) : String :=
  if version = 8 then "C"
  else if version = 7 then "E"
  else if version ≥ 4 then "T"
  else "M"

/-- `Satellite.natural_color_bands` from `satellite.py` (4-3-2 natural color);
raises `ValueError` for Landsats 1-3. -/
def Satellite.natural_color_bands (version : Int) : Except PyErr (List String) :=
  if version < 4 then
    .error (.valueError "True color is not possible for Landsats 1-3 as they did not have a blue band.")
  else if version ≤ 5 ∧ Satellite.sensor version = "T" then
    .ok ["B30", "B20", "B10"]
  else if version ≤ 5 then
    .ok ["B3", "B2", "B1"]
  else if version = 7 then
    .ok ["B3", "B2", "B1"]
  else
    .ok ["B4", "B3", "B2"]

/-- `Satellite.urban_false_color_bands` from `satellite.py` (7-6-4 urban false
color); raises `ValueError` for Landsats 1-3. -/
def Satellite.urban_false_color_bands (version : Int) : Except PyErr (List String) :=
  if version < 4 then
    .error (.valueError "Urban false color is not possible for Landsats 1-3 as they did not have short-wave infrared bands.")
  else if version ≤ 5 ∧ Satellite.sensor version = "T" then
    .ok ["B70", "B50", "B30"]
  else if version ≤ 5 then
    .ok ["B7", "B5", "B3"]
  else if version = 7 then
    .ok ["B7", "B5", "B3"]
  else
    .ok ["B7", "B6", "B4"]

/-- `Satellite.vegetation_false_color_bands` from `satellite.py` (5-4-3 color
infrared); defined for every version the constructor accepts. -/
def Satellite.vegetation_false_color_bands (version : Int) : Except PyErr (List String) :=
  if version < 4 then
    .ok ["B6", "B5", "B4"]
  else if version ≤ 5 ∧ Satellite.sensor version = "T" then
    .ok ["B40", "B30", "B20"]
  else if version ≤ 5 then
    .ok ["B4", "B2", "B1"]
  else if version = 7 then
    .ok ["B4", "B3", "B2"]
  else
    .ok ["B5", "B4", "B3"]

/-- The satellite versions named by the spec as accepted by the constructor. -/
def acceptedVersions : List Int := [1, 2, 3, 4, 5, 7, 8]

namespace Hist

/-- `Satellite.natural_color_bands` from `hist.py`, the earlier copy of the
band table. -/
def natural_color_bands (version : Int) : Except PyErr (List String) :=
  if version < 4 then
    .error (.valueError "True color is not possible for Landsats 1-3 as they did not have a blue band.")
  else if version ≤ 5 ∧ Satellite.sensor version = "T" then
    .ok ["B30", "B20", "B10"]
  else if version ≤ 5 then
    .ok ["B3", "B2", "B1"]
  else if version = 7 then
    .ok ["B30", "B20", "B10"]
  else
    .ok ["B4", "B3", "B2"]

/-- `Satellite.urban_false_color_bands` from `hist.py`. -/
def urban_false_color_bands (version : Int) : Except PyErr (List String) :=
  if version < 4 then
    .error (.valueError "Urban false color is not possible for Landsats 1-3 as they did not have short-wave infrared bands.")
  else if version ≤ 5 ∧ Satellite.sensor version = "T" then
    .ok ["B70", "B50", "B30"]
  else if version ≤ 5 then
    .ok ["B7", "B5", "B3"]
  else if version = 7 then
    .ok ["B70", "B50", "B30"]
  else
    .ok ["B7", "B6", "B4"]

/-- `Satellite.vegetation_false_color_bands` from `hist.py`. -/
def vegetation_false_color_bands (version : Int) : Except PyErr (List String) :=
  if version < 4 then
    .ok ["B6", "B5", "B4"]
  else if version ≤ 5 ∧ Satellite.sensor version = "T" then
    .ok ["B40", "B30", "B20"]
  else if version ≤ 5 then
    .ok ["B4", "B2", "B1"]
  else if version = 7 then
    .ok ["B40", "B30", "B20"]
  else
    .ok ["B5", "B4", "B3"]

end Hist

/-- Python string indexing `s[i]`: `none` models an `IndexError`. -/
def pyIndex (s : List Char) (i : Nat) : Option Char := s.get? i

/-- Python string slicing `s[a:b]` with `a ≤ b` (slicing never raises). -/
def pySlice (s : List Char) (a b : Nat) : List Char := (s.drop a).take (b - a)

/-- Python `int(c)` on a one-character string: the digit value, otherwise a
`ValueError`. -/
def pyIntOfChar (c : Char) : Except PyErr Int :=
  if c.isDigit then .ok ((c.toNat : Int) - 48)
  else .error (.valueError "invalid literal for int()")

/-- A Landsat scene identifier (`scene.py`, class `SceneID`): a `str` subclass,
modelled as its character list. -/
abbrev SceneID := List Char

/-- `SceneID(...)`: the subclass adds no constructor logic, so any string is
accepted unchanged and construction never raises. -/
def SceneID.make (s : List Char) : SceneID := s

/-- `SceneID.sensor`: `self[1]`. -/
def SceneID.sensor (s : SceneID) : Option Char := pyIndex s 1

/-- `SceneID.version`: `int(self[2])`. -/
def SceneID.version (s : SceneID) : Except PyErr Int :=
  match pyIndex s 2 with
  | none => .error .indexError
  | some c => pyIntOfChar c

/-- `SceneID.path`: `self[3:6]`. -/
def SceneID.path (s : SceneID) : List Char := pySlice s 3 6

/-- `SceneID.row`: `self[6:9]`. -/
def SceneID.row (s : SceneID) : List Char := pySlice s 6 9

/-- `SceneID.year`: `self[9:13]`. -/
def SceneID.year (s : SceneID) : List Char := pySlice s 9 13

/-- `SceneID.day`: `self[13:16]`. -/
def SceneID.day (s : SceneID) : List Char := pySlice s 13 16

/-- `SceneID.ground_station_id`: `self[16:19]`. -/
def SceneID.ground_station_id (s : SceneID) : List Char := pySlice s 16 19

/-- `SceneID.archive_version`: `self[19:21]`. -/
def SceneID.archive_version (s : SceneID) : List Char := pySlice s 19 21

/-- The fields of a `Scene` (`scene.py`) that the pipeline steps consult. The
Python object stores the identifier and recomputes `version` from it on each
use; here `version` is the already-extracted integer. -/
structure Scene where
  scene_id : String
  output_dir : String
  cutline : String
  version : Int
deriving DecidableEq, Repr

/-- The filesystem observations made by the `scene.py` pipeline guards:
existence of the archive, of the output directory, of `base_path_B10.TIF`
(the check inside `Scene.bands`), the glob counts of band files (`*_B*`) and
projected files (`*-projected.tif`), and existence of `merged.tif`,
`crop.tif` and `color_corrected.tif`. -/
structure FS where
  zipExists : Bool
  outputDirExists : Bool
  b10LongExists : Bool
  bandFileCount : Nat
  projectedFileCount : Nat
  mergedExists : Bool
  cropExists : Bool
  colorCorrectedExists : Bool
deriving DecidableEq, Repr

/-- A trace of one run: the current filesystem and the external commands
invoked so far, in order. -/
structure Trace where
  fs : FS
  cmds : List String
deriving DecidableEq, Repr

/-- Oracle for external effects: `run cmd fs` gives the filesystem after
`invoke.run(cmd)` together with whether the command succeeded (`false` models
a non-zero exit, i.e. `invoke`'s `Failure`); `equalize` is the in-process
rasterio/skimage work done by `color_correct` after its guards. -/
structure Env where
  run : String → FS → FS × Bool
  equalize : FS → FS

/-- `invoke.run(cmd)`: records the command in the trace, applies its
filesystem effect, and raises `Failure` when it exits non-zero. -/
def Env.exec (env : Env) (cmd : String) (t : Trace) : Trace × Option PyErr :=
  let r := env.run cmd t.fs
  (⟨r.1, t.cmds ++ [cmd]⟩, if r.2 then none else some (.failure cmd))

/-- `Scene.base_path`: `output_dir/scene_id`. -/
def Scene.base_path (sc : Scene) : String := sc.output_dir ++ "/" ++ sc.scene_id

/-- The `gsutil cp` command built by `Scene.download` (URL detail elided). -/
def downloadCmd (sc : Scene) : String :=
  "gsutil cp gs://earthengine-public/landsat/" ++ sc.scene_id ++ ".tar.bz " ++ sc.output_dir

/-- The `tar` command built by `Scene.unzip`. -/
def unzipCmd (sc : Scene) : String :=
  "cd " ++ sc.output_dir ++ " && tar -xzvf " ++ sc.scene_id ++ ".tar.bz"

/-- The first command of `Scene._convert_to_8bit` (`gdal_translate`). -/
def convertCmd (sc : Scene) (band : String) : String :=
  "gdal_translate -scale 0 65535 0 255 -ot Byte " ++ Scene.base_path sc ++ "_" ++ band ++ ".TIF"

/-- The second command of `Scene._convert_to_8bit` (`rm` then `mv`). -/
def convertMvCmd (sc : Scene) (band : String) : String :=
  "rm and mv " ++ Scene.base_path sc ++ "_" ++ band ++ ".TIF"

/-- The `gdalwarp` reprojection command built by `Scene.project_bands`. -/
def projectCmd (sc : Scene) (band : String) : String :=
  "gdalwarp -t_srs EPSG:3857 " ++ Scene.base_path sc ++ "_" ++ band ++ ".TIF"

/-- The `rio stack` command built by `Scene.merge_bands`. -/
def mergeCmd (sc : Scene) (bands : List String) : String :=
  "rio stack " ++ Scene.base_path sc ++ "_" ++ String.intercalate "," bands ++
    "-projected.tif -o " ++ sc.output_dir ++ "/merged.tif"

/-- The `gdalwarp -cutline` command built by `Scene.crop`. -/
def cropCmd (sc : Scene) : String :=
  "gdalwarp -cutline " ++ sc.cutline ++ " -crop_to_cutline " ++ sc.output_dir ++
    "/merged.tif " ++ sc.output_dir ++ "/crop.tif"

/-- Python `'B%i' % b` (or `'B%i0' % b`) with `b` a `str`: the `%i` conversion
requires a number, so the formatting always raises `TypeError`. -/
def pyPercentI (_fmt _b : String) : Except PyErr String :=
  .error (.typeError "%d format: a number is required, not str")

/-- `Scene.bands` (`scene.py`): evaluates `satellite.natural_color_bands`
(which may raise `ValueError`), chooses long (`B%i0`) or short (`B%i`) format
by whether `base_path_B10.TIF` exists, and formats every band name with `%i` —
which raises `TypeError`, the band names being strings. -/
def Scene.bands (sc : Scene) (fs : FS) : Except PyErr (List String) := do
  let ncb ← Satellite.natural_color_bands sc.version
  if fs.b10LongExists then
    ncb.mapM (pyPercentI "B%i0")
  else
    ncb.mapM (pyPercentI "B%i")

/-- `Scene.band_files_exist`: `len(glob(output_dir/*_B*)) >= len(self.bands)`. -/
def Scene.band_files_exist (sc : Scene) (fs : FS) : Except PyErr Bool := do
  let bs ← Scene.bands sc fs
  pure (decide (bs.length ≤ fs.bandFileCount))

/-- `Scene.projected_files_exist`:
`len(glob(output_dir/*-projected.tif)) >= len(self.bands)`. -/
def Scene.projected_files_exist (sc : Scene) (fs : FS) : Except PyErr Bool := do
  let bs ← Scene.bands sc fs
  pure (decide (bs.length ≤ fs.projectedFileCount))

/-- `Scene.download`: returns at once when the archive exists; otherwise
creates the output directory if needed and runs `gsutil cp`. -/
def Scene.download (sc : Scene) (env : Env) (t : Trace) : Trace × Option PyErr :=
  if t.fs.zipExists then (t, none)
  else
    let t1 : Trace :=
      if t.fs.outputDirExists then t
      else ⟨{ t.fs with outputDirExists := true }, t.cmds⟩
    env.exec (downloadCmd sc) t1

/-- `Scene.unzip`: raises `IOError` when the archive is missing, returns when
the band files already exist (a check that itself evaluates `Scene.bands`),
otherwise runs `tar`. -/
def Scene.unzip (sc : Scene) (env : Env) (t : Trace) : Trace × Option PyErr :=
  if !t.fs.zipExists then (t, some (.ioError "Archive does not exist!"))
  else
    match Scene.band_files_exist sc t.fs with
    | .error e => (t, some e)
    | .ok true => (t, none)
    | .ok false => env.exec (unzipCmd sc) t

/-- The per-band loop of `Scene.project_bands`: for Landsat 8 first runs the
two `_convert_to_8bit` commands, then `gdalwarp`; stops at the first failing
command. -/
def Scene.projectLoop (sc : Scene) (env : Env) : List String → Trace → Trace × Option PyErr
  | [], t => (t, none)
  | band :: rest, t =>
    let converted : Trace × Option PyErr :=
      if sc.version > 7 then
        match env.exec (convertCmd sc band) t with
        | (t1, none) => env.exec (convertMvCmd sc band) t1
        | r => r
      else (t, none)
    match converted with
    | (t1, none) =>
      match env.exec (projectCmd sc band) t1 with
      | (t2, none) => Scene.projectLoop sc env rest t2
      | r => r
    | r => r

/-- `Scene.project_bands`: raises `IOError` when the band files are missing,
returns when the projected files already exist, otherwise reprojects each band. -/
def Scene.project_bands (sc : Scene) (env : Env) (t : Trace) : Trace × Option PyErr :=
  match Scene.band_files_exist sc t.fs with
  | .error e => (t, some e)
  | .ok false => (t, some (.ioError "Band files do not exist!"))
  | .ok true =>
    match Scene.projected_files_exist sc t.fs with
    | .error e => (t, some e)
    | .ok true => (t, none)
    | .ok false =>
      match Scene.bands sc t.fs with
      | .error e => (t, some e)
      | .ok bs => Scene.projectLoop sc env bs t

/-- `Scene.merge_bands`: raises `IOError` when the projected files are
missing, returns when `merged.tif` exists, otherwise runs `rio stack`. -/
def Scene.merge_bands (sc : Scene) (env : Env) (t : Trace) : Trace × Option PyErr :=
  match Scene.projected_files_exist sc t.fs with
  | .error e => (t, some e)
  | .ok false => (t, some (.ioError "Projected band files do not exist!"))
  | .ok true =>
    if t.fs.mergedExists then (t, none)
    else
      match Scene.bands sc t.fs with
      | .error e => (t, some e)
      | .ok bs => env.exec (mergeCmd sc bs) t

/-- `Scene.crop`: raises `IOError` when `merged.tif` is missing, returns when
`crop.tif` exists, otherwise runs `gdalwarp -cutline`. -/
def Scene.crop (sc : Scene) (env : Env) (t : Trace) : Trace × Option PyErr :=
  if !t.fs.mergedExists then (t, some (.ioError "Merged file does not exist"))
  else if t.fs.cropExists then (t, none)
  else env.exec (cropCmd sc) t

/-- `Scene.color_correct`: raises `IOError` when `crop.tif` is missing,
returns when `color_corrected.tif` exists, otherwise does the in-process
rasterio/skimage histogram work (no external command). -/
def Scene.color_correct (_sc : Scene) (env : Env) (t : Trace) : Trace × Option PyErr :=
  if !t.fs.cropExists then (t, some (.ioError "Crop file does not exist"))
  else if t.fs.colorCorrectedExists then (t, none)
  else (⟨env.equalize t.fs, t.cmds⟩, none)

/-- Runs a list of pipeline steps in order, stopping at the first exception
(Python's sequential statement semantics inside the `try` block). -/
def runSteps : List (Trace → Trace × Option PyErr) → Trace → Trace × Option PyErr
  | [], t => (t, none)
  | s :: rest, t =>
    match s t with
    | (t1, none) => runSteps rest t1
    | (t1, some e) => (t1, some e)

/-- The six pipeline steps in the order `Scene.process` invokes them. -/
def Scene.pipeline (sc : Scene) (env : Env) : List (Trace → Trace × Option PyErr) :=
  [Scene.download sc env, Scene.unzip sc env, Scene.project_bands sc env,
   Scene.merge_bands sc env, Scene.crop sc env, Scene.color_correct sc env]

/-- The body of the `try` block of `Scene.process`. -/
def Scene.processSteps (sc : Scene) (env : Env) (t : Trace) : Trace × Option PyErr :=
  runSteps (Scene.pipeline sc env) t

/-- `Scene.process`: runs the six steps; `except Failure` catches and logs an
external-command failure, while every other exception propagates. -/
def Scene.process (sc : Scene) (env : Env) (t : Trace) : Trace × Option PyErr :=
  match Scene.processSteps sc env t with
  | (t1, some (.failure _)) => (t1, none)
  | r => r

/-- The per-scene loop of `main` (`main.py`): `scene.process()` is called for
each scene with no surrounding `try`, so any exception escaping `process`
terminates the run. -/
def processScenes (env : Env) : List Scene → Trace → Trace × Option PyErr
  | [], t => (t, none)
  | sc :: rest, t =>
    match Scene.process sc env t with
    | (t1, none) => processScenes env rest t1
    | (t1, some e) => (t1, some e)

/-- `EarthExplorer.get_scenes` works on parsed `metaData` elements carrying a
`sceneID` and a `cloudCoverFull` percentage (modelled as a rational). -/
structure SceneMetadata where
  sceneID : String
  cloudCoverFull : Rat
deriving DecidableEq, Repr

/-- The pure core of `EarthExplorer.get_scenes` (`earthexplorer.py`): given
the parsed metadata entries, `cloud_filter` drops an entry exactly when its
cloud cover strictly exceeds `max_cloud_cover`, and the remaining `sceneID`
texts are returned in document order. -/
def EarthExplorer.get_scenes (max_cloud_cover : Rat)
    (metadata : List SceneMetadata) : List String :=
  ((metadata.filter fun md => !(decide (md.cloudCoverFull > max_cloud_cover))).map
    fun md => md.sceneID)

/-- The `TypeError` message of applying an `%i` conversion to a `str`. -/
def percentFormatMsg : String := "%d format: a number is required, not str"

/-- An environment in which every external command succeeds and has no
observable filesystem effect, and color correction changes nothing. -/
def envId : Env := ⟨fun _ fs => (fs, true), fun fs => fs⟩

/-- An environment in which every external command exits non-zero. -/
def envFail : Env := ⟨fun _ fs => (fs, false), fun fs => fs⟩

/-- A concrete Landsat 4 scene, as built by `main` for the identifier
`LT41910561988052AAA03`. -/
def scV4 : Scene :=
  ⟨"LT41910561988052AAA03", "data/1988/191/56/LT41910561988052AAA03", "cutline.json", 4⟩

/-- The empty filesystem state: nothing downloaded or produced yet. -/
def fs0 : FS := ⟨false, false, false, 0, 0, false, false, false⟩

/-- The state right after a successful download and unzip of a TM scene:
archive present, the three band files on disk (long `B10`-style names). -/
def fsReady : FS := ⟨true, true, true, 3, 0, false, false, false⟩

/-- The initial trace of a fresh run. -/
def tEmpty : Trace := ⟨fs0, []⟩

/-- The trace after `download` ran `gsutil` in `envId` from `tEmpty`: the
output directory was created, the command recorded, but (the copy having no
modelled effect) the archive still absent. -/
def tDownloaded : Trace := ⟨{ fs0 with outputDirExists := true }, [downloadCmd scV4]⟩

/-- C1: for every satellite version the constructor accepts (1-5, 7, 8), the
color-mode properties are pure functions of the version (the sensor code being
itself determined by the version): `natural_color_bands` and
`urban_false_color_bands` raise `ValueError` for versions 1-3 and return an
ordered triplet of exactly three band names for versions 4, 5, 7 and 8, while
`vegetation_false_color_bands` returns such a triplet for every accepted
version. -/
theorem satellite_band_modes (v : Int) (hv : v ∈ acceptedVersions) :
    (v ≤ 3 →
      (∃ m, Satellite.natural_color_bands v = .error (.valueError m)) ∧
      (∃ m, Satellite.urban_false_color_bands v = .error (.valueError m))) ∧
    (4 ≤ v →
      (∃ bs, Satellite.natural_color_bands v = .ok bs ∧ bs.length = 3) ∧
      (∃ bs, Satellite.urban_false_color_bands v = .ok bs ∧ bs.length = 3)) ∧
    (∃ bs, Satellite.vegetation_false_color_bands v = .ok bs ∧ bs.length = 3) := by
  simp only [acceptedVersions, List.mem_cons, List.not_mem_nil, or_false] at hv
  rcases hv with rfl | rfl | rfl | rfl | rfl | rfl | rfl <;>
    refine ⟨fun h => ?_, fun h => ?_, ⟨_, rfl, rfl⟩⟩ <;>
      first
        | exact ⟨⟨_, rfl⟩, ⟨_, rfl⟩⟩
        | exact ⟨⟨_, rfl, rfl⟩, ⟨_, rfl, rfl⟩⟩
        | omega

/-- Witness for C1 at the concrete version 4. -/
theorem satellite_band_modes_witness :
    (4 : Int) ∈ acceptedVersions ∧
    (∃ bs, Satellite.natural_color_bands 4 = .ok bs ∧ bs.length = 3) ∧
    (∃ bs, Satellite.vegetation_false_color_bands 4 = .ok bs ∧ bs.length = 3) :=
  ⟨by decide, ((satellite_band_modes 4 (by decide)).2.1 (by decide)).1,
    (satellite_band_modes 4 (by decide)).2.2⟩

/-- C3 counterexample: version 0 lies outside the range 1-8, yet the
constructor accepts it and stores it — `__init__` never checks a lower
bound, so the claimed "raises exactly when outside 1-8 or equal to 6" fails
at version 0. -/
theorem satellite_init_accepts_zero :
    Satellite.init 0 = .ok ⟨0⟩ ∧ (0 : Int) ∉ acceptedVersions := by
  exact ⟨rfl, by decide⟩

/-- C3 (amended): constructing a `Satellite` raises `ValueError` exactly when
the version equals 6 or exceeds 8; every other integer version — including 0
and negatives, which lie below the spec's range — is accepted with the version
stored unchanged. -/
theorem satellite_init_exact (v : Int) :
    (Satellite.init v = .ok ⟨v⟩ ↔ ¬(v = 6 ∨ 8 < v)) ∧
    ((∃ m, Satellite.init v = .error (.valueError m)) ↔ (v = 6 ∨ 8 < v)) := by
  unfold Satellite.init
  by_cases h6 : v = 6 <;> by_cases h8 : 8 < v <;>
    simp [h6, h8]

/-- C4: `get_scenes` returns exactly the scene identifiers of the metadata
entries whose reported cloud cover is at most `max_cloud_cover`, in document
order; entries whose cloud cover strictly exceeds the threshold are excluded
by `cloud_filter`. -/
theorem get_scenes_cloud_cover_filter (max_cloud_cover : Rat)
    (metadata : List SceneMetadata) :
    EarthExplorer.get_scenes max_cloud_cover metadata =
      (metadata.filter fun md => decide (md.cloudCoverFull ≤ max_cloud_cover)).map
        SceneMetadata.sceneID := by
  unfold EarthExplorer.get_scenes
  congr 1
  apply List.filter_congr
  intro md _
  simp [← decide_not, not_lt]

/-- C10 counterexample: at version 7 the natural-color triplet of `hist.py`
is the two-digit `B30, B20, B10` while `satellite.py` returns the one-digit
`B3, B2, B1` — the later script changed the Landsat 7 lookups. -/
theorem hist_satellite_differ_at_seven :
    Hist.natural_color_bands 7 ≠ Satellite.natural_color_bands 7 ∧
    Hist.urban_false_color_bands 7 ≠ Satellite.urban_false_color_bands 7 ∧
    Hist.vegetation_false_color_bands 7 ≠ Satellite.vegetation_false_color_bands 7 := by
  decide

/-- C10 (amended): for every accepted version other than 7 the two copies of
the band table agree on all three color modes (errors included); only the
Landsat 7 rows were changed between `hist.py` and `satellite.py`. -/
theorem hist_satellite_agree_off_seven (v : Int) (hv : v ∈ acceptedVersions)
    (h7 : v ≠ 7) :
    Hist.natural_color_bands v = Satellite.natural_color_bands v ∧
    Hist.urban_false_color_bands v = Satellite.urban_false_color_bands v ∧
    Hist.vegetation_false_color_bands v = Satellite.vegetation_false_color_bands v := by
  simp only [acceptedVersions, List.mem_cons, List.not_mem_nil, or_false] at hv
  rcases hv with rfl | rfl | rfl | rfl | rfl | rfl | rfl <;>
    first
      | decide
      | exact absurd rfl h7

/-- Witness for C10's amended statement at the concrete version 5. -/
theorem hist_satellite_agree_off_seven_witness :
    (5 : Int) ∈ acceptedVersions ∧ (5 : Int) ≠ 7 ∧
    Hist.natural_color_bands 5 = Satellite.natural_color_bands 5 :=
  ⟨by decide, by decide, (hist_satellite_agree_off_seven 5 (by decide) (by decide)).1⟩


/-- C2: for every scene identifier string of the fixed length 21, each
accessor returns exactly its byte-offset field — `sensor` is character 1,
`version` the integer value of (digit) character 2, `path` characters 3-5,
`row` 6-8, `year` 9-12, `day` 13-15, `ground_station_id` 16-18 and
`archive_version` 19-20 — and construction performs no validation at all, so
any such string is accepted unchanged without raising. -/
theorem sceneID_field_accessors (s : List Char) (h : s.length = 21) :
    SceneID.make s = s ∧
    SceneID.sensor s = some (s.get ⟨1, by omega⟩) ∧
    ((s.get ⟨2, by omega⟩).isDigit = true →
      SceneID.version s = .ok (((s.get ⟨2, by omega⟩).toNat : Int) - 48)) ∧
    SceneID.path s = [s.get ⟨3, by omega⟩, s.get ⟨4, by omega⟩, s.get ⟨5, by omega⟩] ∧
    SceneID.row s = [s.get ⟨6, by omega⟩, s.get ⟨7, by omega⟩, s.get ⟨8, by omega⟩] ∧
    SceneID.year s = [s.get ⟨9, by omega⟩, s.get ⟨10, by omega⟩, s.get ⟨11, by omega⟩,
      s.get ⟨12, by omega⟩] ∧
    SceneID.day s = [s.get ⟨13, by omega⟩, s.get ⟨14, by omega⟩, s.get ⟨15, by omega⟩] ∧
    SceneID.ground_station_id s = [s.get ⟨16, by omega⟩, s.get ⟨17, by omega⟩,
      s.get ⟨18, by omega⟩] ∧
    SceneID.archive_version s = [s.get ⟨19, by omega⟩, s.get ⟨20, by omega⟩] := by
  obtain _ | ⟨c0, s⟩ := s; · simp at h
  obtain _ | ⟨c1, s⟩ := s; · simp at h
  obtain _ | ⟨c2, s⟩ := s; · simp at h
  obtain _ | ⟨c3, s⟩ := s; · simp at h
  obtain _ | ⟨c4, s⟩ := s; · simp at h
  obtain _ | ⟨c5, s⟩ := s; · simp at h
  obtain _ | ⟨c6, s⟩ := s; · simp at h
  obtain _ | ⟨c7, s⟩ := s; · simp at h
  obtain _ | ⟨c8, s⟩ := s; · simp at h
  obtain _ | ⟨c9, s⟩ := s; · simp at h
  obtain _ | ⟨c10, s⟩ := s; · simp at h
  obtain _ | ⟨c11, s⟩ := s; · simp at h
  obtain _ | ⟨c12, s⟩ := s; · simp at h
  obtain _ | ⟨c13, s⟩ := s; · simp at h
  obtain _ | ⟨c14, s⟩ := s; · simp at h
  obtain _ | ⟨c15, s⟩ := s; · simp at h
  obtain _ | ⟨c16, s⟩ := s; · simp at h
  obtain _ | ⟨c17, s⟩ := s; · simp at h
  obtain _ | ⟨c18, s⟩ := s; · simp at h
  obtain _ | ⟨c19, s⟩ := s; · simp at h
  obtain _ | ⟨c20, s⟩ := s; · simp at h
  obtain _ | ⟨c21, s⟩ := s
  case cons => simp at h
  refine ⟨rfl, rfl, fun hd => ?_, rfl, rfl, rfl, rfl, rfl, rfl⟩
  have hd2 : c2.isDigit = true := hd
  simp [SceneID.version, pyIndex, pyIntOfChar, hd2]


/-- Witness for C2 at the concrete identifier `LT41910561988052AAA03`. -/
theorem sceneID_field_accessors_witness :
    ("LT41910561988052AAA03".data.length = 21) ∧
    SceneID.path "LT41910561988052AAA03".data = ['1', '9', '1'] ∧
    SceneID.version "LT41910561988052AAA03".data = .ok 4 := by
  refine ⟨by decide, ?_, ?_⟩
  · rw [(sceneID_field_accessors "LT41910561988052AAA03".data (by decide)).2.2.2.1]
    decide
  · rw [(sceneID_field_accessors "LT41910561988052AAA03".data (by decide)).2.2.1 (by decide)]
    decide

/-- For every version from 4 upward, `natural_color_bands` returns a
non-empty list of band names (whichever branch of the table fires). -/
theorem natural_color_bands_cons (v : Int) (h : 4 ≤ v) :
    ∃ b bs, Satellite.natural_color_bands v = .ok (b :: bs) := by
  unfold Satellite.natural_color_bands
  have h4 : ¬ v < 4 := by omega
  simp only [h4, if_false]
  split
  · exact ⟨_, _, rfl⟩
  · split
    · exact ⟨_, _, rfl⟩
    · split
      · exact ⟨_, _, rfl⟩
      · exact ⟨_, _, rfl⟩

/-- In every filesystem state, `Scene.bands` of a scene with version at least
4 raises the `%i`-formatting `TypeError`. -/
theorem scene_bands_always_type_error (sc : Scene) (h : 4 ≤ sc.version) (fs : FS) :
    Scene.bands sc fs = .error (.typeError percentFormatMsg) := by
  obtain ⟨b, bs, hn⟩ := natural_color_bands_cons sc.version h
  unfold Scene.bands
  rw [hn]
  by_cases hb : fs.b10LongExists <;>
    simp only [hb, if_true, Bool.false_eq_true, if_false] <;> rfl

/-- `band_files_exist` and `projected_files_exist` propagate the `TypeError`
of `Scene.bands`. -/
theorem band_checks_type_error (sc : Scene) (h : 4 ≤ sc.version) (fs : FS) :
    Scene.band_files_exist sc fs = .error (.typeError percentFormatMsg) ∧
    Scene.projected_files_exist sc fs = .error (.typeError percentFormatMsg) := by
  constructor <;>
    simp [Scene.band_files_exist, Scene.projected_files_exist,
      scene_bands_always_type_error sc h fs, Except.bind]

/-- C9: for every scene whose satellite version admits natural color
(version at least 4), `Scene.bands` raises `TypeError` in every filesystem
state, because `'B%i' % b` applies an integer conversion to the string band
names; consequently `band_files_exist` raises, and `unzip`, `project_bands`
and `merge_bands` — the steps that consult `bands` — always end in an
exception, never completing successfully. -/
theorem scene_bands_type_error_poisons_pipeline (sc : Scene) (h : 4 ≤ sc.version)
    (fs : FS) (env : Env) (t : Trace) :
    Scene.bands sc fs = .error (.typeError percentFormatMsg) ∧
    Scene.band_files_exist sc fs = .error (.typeError percentFormatMsg) ∧
    (Scene.unzip sc env t).2.isSome = true ∧
    (Scene.project_bands sc env t).2.isSome = true ∧
    (Scene.merge_bands sc env t).2.isSome = true := by
  refine ⟨scene_bands_always_type_error sc h fs, (band_checks_type_error sc h fs).1,
    ?_, ?_, ?_⟩
  · unfold Scene.unzip
    by_cases hz : t.fs.zipExists <;> simp [hz, (band_checks_type_error sc h t.fs).1]
  · unfold Scene.project_bands
    simp [(band_checks_type_error sc h t.fs).1]
  · unfold Scene.merge_bands
    simp [(band_checks_type_error sc h t.fs).2]

/-- Witness for C9 at the concrete Landsat 4 scene and the empty filesystem. -/
theorem scene_bands_type_error_poisons_pipeline_witness :
    (4 ≤ scV4.version) ∧
    Scene.bands scV4 fs0 = .error (.typeError percentFormatMsg) ∧
    (Scene.unzip scV4 envId tEmpty).2.isSome = true :=
  ⟨by decide, (scene_bands_type_error_poisons_pipeline scV4 (by decide) fs0 envId tEmpty).1,
    (scene_bands_type_error_poisons_pipeline scV4 (by decide) fs0 envId tEmpty).2.2.1⟩

/-- C5 evaluated at the failing state: for a version-4 scene whose archive and
all three band files are already on disk — the state in which the claim says
`unzip` must return immediately as a no-op — `unzip` instead raises
`TypeError`, because its idempotence guard `band_files_exist` evaluates the
broken `Scene.bands`; `project_bands` and `merge_bands` fail the same way from
their guards. (Only `download`, `crop` and `color_correct`, whose guards do
not consult `bands`, behave as the claim describes.) The state and command
list are returned unchanged. -/
theorem unzip_guard_raises_instead_of_no_op :
    Scene.unzip scV4 envId ⟨fsReady, []⟩ =
      (⟨fsReady, []⟩, some (.typeError percentFormatMsg)) ∧
    Scene.download scV4 envId ⟨fsReady, []⟩ = (⟨fsReady, []⟩, none) := by
  constructor <;> rfl

/-- C6 evaluated at the failing input: for a version-4 scene with no band
files on disk, `project_bands` raises `TypeError` — not the `IOError` the
claim requires — because the precondition check itself evaluates the broken
`Scene.bands`; `merge_bands` fails identically. `unzip`, `crop` and
`color_correct` do raise `IOError` as claimed, before any external command and
with the trace unchanged. -/
theorem project_bands_type_error_not_io_error :
    Scene.project_bands scV4 envId tEmpty = (tEmpty, some (.typeError percentFormatMsg)) ∧
    Scene.merge_bands scV4 envId tEmpty = (tEmpty, some (.typeError percentFormatMsg)) ∧
    Scene.unzip scV4 envId tEmpty = (tEmpty, some (.ioError "Archive does not exist!")) ∧
    Scene.crop scV4 envId tEmpty = (tEmpty, some (.ioError "Merged file does not exist")) ∧
    Scene.color_correct scV4 envId tEmpty = (tEmpty, some (.ioError "Crop file does not exist")) := by
  refine ⟨rfl, rfl, rfl, rfl, rfl⟩

/-- Splitting lemma for `runSteps`: running a concatenation of step lists is
running the first list, then — only if it finished without an exception — the
second. -/
theorem runSteps_append (l1 l2 : List (Trace → Trace × Option PyErr)) (t : Trace) :
    runSteps (l1 ++ l2) t =
      match runSteps l1 t with
      | (t1, none) => runSteps l2 t1
      | (t1, some e) => (t1, some e) := by
  induction l1 generalizing t with
  | nil => rfl
  | cons s l1 ih =>
    simp only [List.cons_append, runSteps]
    rcases s t with ⟨t1, e⟩
    cases e with
    | none => exact ih t1
    | some e => rfl

/-- C7 counterexample: starting from an empty filesystem in an environment
where `gsutil` succeeds but the archive still does not appear, `unzip` raises
`IOError`; `Scene.process` does not catch it (its `except` clause names only
`Failure`), and the per-scene loop of `main` terminates with the exception —
the second scene of the list is never reached — instead of logging and
continuing as the claim states. -/
theorem io_error_terminates_run_example :
    Scene.process scV4 envId tEmpty =
      (tDownloaded, some (.ioError "Archive does not exist!")) ∧
    processScenes envId [scV4, scV4] tEmpty =
      (tDownloaded, some (.ioError "Archive does not exist!")) := by
  constructor <;> rfl

/-- C7 (amended): an `IOError` from a missing precondition file is caught
nowhere — `Scene.process` catches only `invoke`'s `Failure`, so the `IOError`
propagates out of `process` unchanged, and the per-scene loop of `main`
terminates at that scene, never processing the remaining scenes, rather than
logging and continuing. -/
theorem io_error_uncaught_terminates_run (sc : Scene) (rest : List Scene) (env : Env)
    (t t1 : Trace) (m : String)
    (h : Scene.processSteps sc env t = (t1, some (.ioError m))) :
    Scene.process sc env t = (t1, some (.ioError m)) ∧
    processScenes env (sc :: rest) t = (t1, some (.ioError m)) := by
  have hp : Scene.process sc env t = (t1, some (.ioError m)) := by
    unfold Scene.process
    rw [h]
  exact ⟨hp, by unfold processScenes; rw [hp]⟩

/-- Witness for C7's amended statement at a concrete scene, environment and
state. -/
theorem io_error_uncaught_terminates_run_witness :
    Scene.processSteps scV4 envId tEmpty =
      (tDownloaded, some (.ioError "Archive does not exist!")) ∧
    processScenes envId [scV4] tEmpty =
      (tDownloaded, some (.ioError "Archive does not exist!")) :=
  ⟨rfl, (io_error_uncaught_terminates_run scV4 [] envId tEmpty tDownloaded
    "Archive does not exist!" rfl).2⟩

/-- C8: whichever pipeline step is the first to raise `invoke`'s `Failure`
(an external command exiting non-zero), the steps after it are not executed —
the try-block's result is exactly the failing step's trace, whatever the
remaining steps `post` are — `Scene.process` catches the exception at its top
level, and the per-scene loop moves on to the next scene from that trace
rather than aborting the run. -/
theorem failure_caught_run_continues (sc : Scene) (rest : List Scene) (env : Env)
    (t t1 t2 : Trace) (m : String)
    (pre post : List (Trace → Trace × Option PyErr)) (step : Trace → Trace × Option PyErr)
    (hsplit : Scene.pipeline sc env = pre ++ step :: post)
    (hpre : runSteps pre t = (t1, none))
    (hstep : step t1 = (t2, some (.failure m))) :
    Scene.processSteps sc env t = (t2, some (.failure m)) ∧
    Scene.process sc env t = (t2, none) ∧
    processScenes env (sc :: rest) t = processScenes env rest t2 := by
  have hps : Scene.processSteps sc env t = (t2, some (.failure m)) := by
    unfold Scene.processSteps
    rw [hsplit, runSteps_append, hpre]
    show runSteps (step :: post) t1 = _
    simp only [runSteps]
    rw [hstep]
  have hp : Scene.process sc env t = (t2, none) := by
    unfold Scene.process
    rw [hps]
  refine ⟨hps, hp, ?_⟩
  show (match Scene.process sc env t with
        | (t1, none) => processScenes env rest t1
        | (t1, some e) => (t1, some e)) = processScenes env rest t2
  rw [hp]

/-- Witness for C8: the first step (`download`) fails in an environment where
every command exits non-zero; `process` swallows the `Failure` and the loop
continues with the rest of the scene list. -/
theorem failure_caught_run_continues_witness :
    Scene.process scV4 envFail tEmpty = (tDownloaded, none) ∧
    processScenes envFail [scV4] tEmpty = processScenes envFail [] tDownloaded :=
  ⟨(failure_caught_run_continues scV4 [] envFail tEmpty tEmpty tDownloaded
      (downloadCmd scV4) [] _ (Scene.download scV4 envFail) rfl rfl rfl).2.1,
   (failure_caught_run_continues scV4 [] envFail tEmpty tEmpty tDownloaded
      (downloadCmd scV4) [] _ (Scene.download scV4 envFail) rfl rfl rfl).2.2⟩
